import Mathlib

/-!
# Shallow embedding of the RecallBricks TypeScript client core

This file embeds the request-execution pipeline of the RecallBricks SDK
(`src/client.ts`, here `src/unnamed/part_007`, with the error type from
`src/types.ts`, here `src/unnamed/part_003`) into Lean 4 and proves the
frozen claims about it.

Modelling conventions:
* Optional constructor fields become `Option` values; JavaScript truthiness
  on strings/numbers (`""` and `0` are falsy) is made explicit via
  `jsTruthyStr` / `jsTruthyNat`, mirroring the `a || b` defaulting idiom.
* The axios failure shape (duck-typed on `error.response` / `error.request`)
  becomes the tagged union `AxiosFailure`.
* `executeWithRetry` becomes a pure function from a retry config and an
  operation (a function from the 0-indexed attempt number to the outcome of
  that attempt) to a `RunTrace` recording the number of operation invocations,
  the backoff sleeps performed in order, and the final result.
* A non-axios thrown value is represented by the `.otherFail` outcome
  carrying an opaque payload; propagation "unchanged" is equality of that
  payload in the result.
-/

namespace RecallBricks

/-- JavaScript truthiness of an optional string: `undefined` and `""` are falsy. -/
def jsTruthyStr : Option String → Bool
  | none => false
  | some s => s ≠ ""

/-- JavaScript truthiness of an optional number (here `Nat`): `undefined` and `0` are falsy. -/
def jsTruthyNat : Option Nat → Bool
  | none => false
  | some n => n ≠ 0

/-- The `a || b` defaulting idiom on an optional string field. -/
def jsOrStr (v : Option String) (d : String) : String :=
  if jsTruthyStr v then v.getD d else d

/-- The `a || b` defaulting idiom on an optional numeric field. -/
def jsOrNat (v : Option Nat) (d : Nat) : Nat :=
  if jsTruthyNat v then v.getD d else d

/-- A character the JavaScript `trim()` removes (ASCII whitespace plus the
common Unicode space characters that matter here). -/
def isJsWhitespace (c : Char) : Bool :=
  c == ' ' || c == '\t' || c == '\n' || c == '\r'
    || c == '\x0b' || c == '\x0c' || c == '\u00A0'

/-- A string is blank in the sense of `!s || s.trim().length === 0`:
the empty string, or a string whose trim is empty — equivalently, one all of
whose characters are whitespace. -/
def jsBlank (s : String) : Bool :=
  s == "" || s.toList.all isJsWhitespace

/-- `RecallBricksConfig` from `src/types.ts`: the constructor input.
All fields are optional on the TypeScript side. -/
structure RecallBricksConfig where
  apiKey : Option String := none
  serviceToken : Option String := none
  baseUrl : Option String := none
  timeout : Option Nat := none
  maxRetries : Option Nat := none
  retryDelay : Option Nat := none
  maxRetryDelay : Option Nat := none
  deriving Repr, DecidableEq

/-- `RecallBricksError` from `src/types.ts`: message, optional status code,
optional machine code, optional opaque details. -/
structure RecallBricksError where
  message : String
  statusCode : Option Nat := none
  code : Option String := none
  details : Option String := none
  deriving Repr, DecidableEq

/-- `RetryConfig` from `src/types.ts`. -/
structure RetryConfig where
  maxRetries : Nat
  retryDelay : Nat
  maxRetryDelay : Nat
  deriving Repr, DecidableEq

/-- The error-response body `ApiError` from `src/types.ts`:
`{error: string, code?: string, details?: any}`; the normalizer tolerates
absence of any field, so all are optional here. -/
structure ApiError where
  error : Option String := none
  code : Option String := none
  details : Option String := none
  deriving Repr, DecidableEq

/-- An HTTP error response attached to an axios error. -/
structure HttpResponse where
  status : Nat
  data : ApiError
  deriving Repr, DecidableEq

/-- The axios error shape, as dispatched on by `handleAxiosError`:
`error.response` set (HTTP response received), `error.request` set but no
response (request sent, nothing came back), or neither (failure before
dispatch). Every variant carries the transport-level `error.message`. -/
inductive AxiosFailure where
  | response (message : String) (resp : HttpResponse)
  | noResponse (message : String)
  | setupError (message : String)
  deriving Repr, DecidableEq

/-- The client state set up by the constructor: base URL, timeout, the
auth header (name, value), which auth mode is active, and the retry config. -/
structure Client where
  baseURL : String
  timeout : Nat
  usingServiceToken : Bool
  authHeaderName : String
  authHeaderValue : String
  retryConfig : RetryConfig
  deriving Repr, DecidableEq

/-- The `MISSING_AUTH` construction error (`client.ts` lines 60-66). -/
def missingAuthError : RecallBricksError :=
  { message := "Either apiKey or serviceToken must be provided"
    statusCode := some 400
    code := some "MISSING_AUTH" }

/-- The `INVALID_AUTH_CONFIG` construction error (`client.ts` lines 68-74). -/
def conflictAuthError : RecallBricksError :=
  { message := "Provide either apiKey or serviceToken, not both"
    statusCode := some 400
    code := some "INVALID_AUTH_CONFIG" }

/-- The `MISSING_USER_ID` error thrown by `validateUserId`. -/
def missingUserIdError : RecallBricksError :=
  { message := "userId is required when using service token authentication"
    statusCode := some 400
    code := some "MISSING_USER_ID" }

/-- An `INVALID_INPUT` local validation error with the given message. -/
def invalidInputError (msg : String) : RecallBricksError :=
  { message := msg, statusCode := some 400, code := some "INVALID_INPUT" }

/-- The `RecallBricks` constructor (`client.ts` lines 58-101): validates that
exactly one truthy credential is provided, picks the auth header, and applies
`||`-style defaults to baseUrl, timeout and the retry knobs. -/
def construct (config : RecallBricksConfig) : Except RecallBricksError Client :=
  if !jsTruthyStr config.apiKey && !jsTruthyStr config.serviceToken then
    .error missingAuthError
  else if jsTruthyStr config.apiKey && jsTruthyStr config.serviceToken then
    .error conflictAuthError
  else
    let usingServiceToken := jsTruthyStr config.serviceToken
    .ok
      { baseURL := jsOrStr config.baseUrl "http://localhost:10002/api/v1"
        timeout := jsOrNat config.timeout 30000
        usingServiceToken
        authHeaderName :=
          if usingServiceToken then "X-Service-Token" else "X-API-Key"
        authHeaderValue :=
          if usingServiceToken then (config.serviceToken.getD "")
          else (config.apiKey.getD "")
        retryConfig :=
          { maxRetries := jsOrNat config.maxRetries 3
            retryDelay := jsOrNat config.retryDelay 1000
            maxRetryDelay := jsOrNat config.maxRetryDelay 10000 } }

/-- `isRetryableError` (`client.ts` lines 125-134): no response → retryable;
otherwise retryable iff status is 429 or in [500, 504]. -/
def isRetryableError : AxiosFailure → Bool
  | .response _ resp =>
      resp.status == 429 || (resp.status ≥ 500 && resp.status ≤ 504)
  | _ => true

/-- `calculateBackoff` (`client.ts` lines 142-145):
`min(retryDelay * 2^attempt, maxRetryDelay)`. -/
def calculateBackoff (rc : RetryConfig) (attempt : Nat) : Nat :=
  min (rc.retryDelay * 2 ^ attempt) rc.maxRetryDelay

/-- `handleAxiosError` (`client.ts` lines 206-228): the three-way error
normalizer. With a response: message is `data.error || error.message`
(truthy fallback), status is the response status, code/details come from the
body. Without a response: fixed message, status `0`, code `NO_RESPONSE`.
Before dispatch: transport message, status `0`, code `REQUEST_SETUP_ERROR`. -/
def handleAxiosError : AxiosFailure → RecallBricksError
  | .response msg resp =>
      { message := if jsTruthyStr resp.data.error then resp.data.error.getD "" else msg
        statusCode := some resp.status
        code := resp.data.code
        details := resp.data.details }
  | .noResponse _ =>
      { message := "No response received from server"
        statusCode := some 0
        code := some "NO_RESPONSE" }
  | .setupError msg =>
      { message := msg
        statusCode := some 0
        code := some "REQUEST_SETUP_ERROR" }

/-- Outcome of one invocation of the wrapped operation: success, a failure
recognized by `axios.isAxiosError`, or any other thrown value (carried as an
opaque payload). -/
inductive OpResult (T : Type) where
  | ok (val : T)
  | axiosFail (e : AxiosFailure)
  | otherFail (payload : String)
  deriving Repr, DecidableEq

/-- What `executeWithRetry` throws: a normalized `RecallBricksError`, or a
non-axios value propagated unchanged. -/
inductive ThrownError where
  | normalized (e : RecallBricksError)
  | raw (payload : String)
  deriving Repr, DecidableEq

/-- Observable trace of one `executeWithRetry` run: how many times the
operation was invoked, the backoff sleeps performed (in order), and the
final outcome. -/
structure RunTrace (T : Type) where
  attempts : Nat
  sleeps : List Nat
  result : Except ThrownError T
  deriving Repr

/-- A trace for a method that fails locally before reaching the retry engine:
zero operation invocations, no sleeps. -/
def localFailure (T : Type) (e : RecallBricksError) : RunTrace T :=
  { attempts := 0, sleeps := [], result := .error (.normalized e) }

/-- The body of the `executeWithRetry` loop (`client.ts` lines 168-194),
unrolled on `remaining = maxRetries - attempt`: try the operation at index
`attempt`; on success return; on a non-axios error throw it unchanged; on an
axios error throw the normalized error if it is not retryable or if
`attempt == maxRetries` (`remaining = 0`), else sleep
`calculateBackoff attempt` and recurse. -/
def runFrom (rc : RetryConfig) (op : Nat → OpResult T) (attempt remaining : Nat) :
    RunTrace T :=
  match op attempt with
  | .ok v => { attempts := 1, sleeps := [], result := .ok v }
  | .otherFail payload =>
      { attempts := 1, sleeps := [], result := .error (.raw payload) }
  | .axiosFail e =>
      if !isRetryableError e then
        { attempts := 1, sleeps := [], result := .error (.normalized (handleAxiosError e)) }
      else
        match remaining with
        | 0 =>
            { attempts := 1, sleeps := []
              result := .error (.normalized (handleAxiosError e)) }
        | r + 1 =>
            let rest := runFrom rc op (attempt + 1) r
            { attempts := rest.attempts + 1
              sleeps := calculateBackoff rc attempt :: rest.sleeps
              result := rest.result }

/-- `executeWithRetry` (`client.ts` lines 163-198): run the loop from
attempt 0 with `maxRetries` further attempts allowed. -/
def executeWithRetry (rc : RetryConfig) (op : Nat → OpResult T) : RunTrace T :=
  runFrom rc op 0 rc.maxRetries

/-- `validateUserId` (`client.ts` lines 109-117) as a predicate: true when the
guard throws, i.e. service-token mode is active and `userId` is falsy. -/
def userIdMissing (c : Client) (userId : Option String) : Bool :=
  c.usingServiceToken && !jsTruthyStr userId

/-- `createMemory` (`client.ts` lines 253-271) up to the network closure:
blank-text validation, then `validateUserId`, then the retry engine. -/
def createMemory (c : Client) (text : String) (userId : Option String)
    (op : Nat → OpResult T) : RunTrace T :=
  if jsBlank text then localFailure T (invalidInputError "Text is required")
  else if userIdMissing c userId then localFailure T missingUserIdError
  else executeWithRetry c.retryConfig op

/-- `listMemories` (`client.ts` lines 298-315): only `validateUserId`, then
the retry engine. -/
def listMemories (c : Client) (userId : Option String)
    (op : Nat → OpResult T) : RunTrace T :=
  if userIdMissing c userId then localFailure T missingUserIdError
  else executeWithRetry c.retryConfig op

/-- `search` (`client.ts` lines 342-361): blank-query validation, then
`validateUserId`, then the retry engine. -/
def search (c : Client) (query : String) (userId : Option String)
    (op : Nat → OpResult T) : RunTrace T :=
  if jsBlank query then localFailure T (invalidInputError "Query is required")
  else if userIdMissing c userId then localFailure T missingUserIdError
  else executeWithRetry c.retryConfig op

/-- `predictMemories` (`client.ts` lines 513-530): only `validateUserId`,
then the retry engine. -/
def predictMemories (c : Client) (userId : Option String)
    (op : Nat → OpResult T) : RunTrace T :=
  if userIdMissing c userId then localFailure T missingUserIdError
  else executeWithRetry c.retryConfig op

/-- `suggestMemories` (`client.ts` lines 557-583): blank-context validation,
then `validateUserId`, then the retry engine. -/
def suggestMemories (c : Client) (context : String) (userId : Option String)
    (op : Nat → OpResult T) : RunTrace T :=
  if jsBlank context then localFailure T (invalidInputError "Context is required")
  else if userIdMissing c userId then localFailure T missingUserIdError
  else executeWithRetry c.retryConfig op

/-- `searchWeighted` (`client.ts` lines 666-698): blank-query validation,
then `validateUserId`, then the retry engine. -/
def searchWeighted (c : Client) (query : String) (userId : Option String)
    (op : Nat → OpResult T) : RunTrace T :=
  if jsBlank query then localFailure T (invalidInputError "Query is required")
  else if userIdMissing c userId then localFailure T missingUserIdError
  else executeWithRetry c.retryConfig op

/-- `getRelationships` (`client.ts` lines 377-388): blank-id validation, then
the retry engine (no userId check). -/
def getRelationships (c : Client) (memoryId : String)
    (op : Nat → OpResult T) : RunTrace T :=
  if jsBlank memoryId then localFailure T (invalidInputError "Memory ID is required")
  else executeWithRetry c.retryConfig op

/-- `getGraphContext` (`client.ts` lines 404-420): blank-id validation, then
the depth range check `depth < 1 || depth > 10`, then the retry engine.
`depth` is an `Int` since the TypeScript argument is an arbitrary number. -/
def getGraphContext (c : Client) (memoryId : String) (depth : Int)
    (op : Nat → OpResult T) : RunTrace T :=
  if jsBlank memoryId then localFailure T (invalidInputError "Memory ID is required")
  else if depth < 1 || depth > 10 then
    localFailure T (invalidInputError "Depth must be between 1 and 10")
  else executeWithRetry c.retryConfig op

/-- `getLearningMetrics` (`client.ts` lines 599-610): `days < 1` validation,
then the retry engine. -/
def getLearningMetrics (c : Client) (days : Int)
    (op : Nat → OpResult T) : RunTrace T :=
  if days < 1 then localFailure T (invalidInputError "Days must be at least 1")
  else executeWithRetry c.retryConfig op

/-- `getPatterns` (`client.ts` lines 626-637): `days < 1` validation, then
the retry engine. -/
def getPatterns (c : Client) (days : Int)
    (op : Nat → OpResult T) : RunTrace T :=
  if days < 1 then localFailure T (invalidInputError "Days must be at least 1")
  else executeWithRetry c.retryConfig op

/-! ## Concrete fixtures used by witnesses -/

/-- A concrete 404 response failure, as axios reports one. -/
def exResp404 : AxiosFailure :=
  .response "Request failed with status code 404"
    { status := 404
      data := { error := some "Not found", code := some "NOT_FOUND" } }

/-- An operation that succeeds immediately with the value 0. -/
def okOp : Nat → OpResult Nat := fun _ => .ok 0

/-- An operation that fails retryably once (no response) and then throws a
non-axios error. -/
def exMixedOp : Nat → OpResult Nat := fun i =>
  match i with
  | 0 => .axiosFail (.noResponse "timeout of 100ms exceeded")
  | _ => .otherFail "TypeError: boom"

/-- A concrete api-key-mode client with the default knobs. -/
def apiClientEx : Client :=
  { baseURL := "http://localhost:10002/api/v1"
    timeout := 30000
    usingServiceToken := false
    authHeaderName := "X-API-Key"
    authHeaderValue := "test-api-key"
    retryConfig := { maxRetries := 3, retryDelay := 1000, maxRetryDelay := 10000 } }

/-- A concrete service-token-mode client with the default knobs. -/
def svcClientEx : Client :=
  { baseURL := "http://localhost:10002/api/v1"
    timeout := 30000
    usingServiceToken := true
    authHeaderName := "X-Service-Token"
    authHeaderValue := "test-service-token"
    retryConfig := { maxRetries := 3, retryDelay := 1000, maxRetryDelay := 10000 } }

/-- Two constructor inputs differ only in the credential values: all
non-credential fields agree and the active auth mode agrees. -/
def sameExceptCredential (c1 c2 : RecallBricksConfig) : Prop :=
  c1.baseUrl = c2.baseUrl ∧ c1.timeout = c2.timeout
    ∧ c1.maxRetries = c2.maxRetries ∧ c1.retryDelay = c2.retryDelay
    ∧ c1.maxRetryDelay = c2.maxRetryDelay
    ∧ jsTruthyStr c1.serviceToken = jsTruthyStr c2.serviceToken

/-! ## Helper lemmas about the retry loop -/

/-- If the attempt at index `a` succeeds, the loop returns at once. -/
lemma runFrom_of_ok (rc : RetryConfig) (op : Nat → OpResult T) (a r : Nat)
    (v : T) (hop : op a = .ok v) :
    runFrom rc op a r = { attempts := 1, sleeps := [], result := .ok v } := by
  rw [runFrom.eq_def]
  cases r <;> simp [hop]

/-- If the attempt at index `a` throws a non-axios value, the loop rethrows it
unchanged at once. -/
lemma runFrom_of_other (rc : RetryConfig) (op : Nat → OpResult T) (a r : Nat)
    (payload : String) (hop : op a = .otherFail payload) :
    runFrom rc op a r =
      { attempts := 1, sleeps := [], result := .error (.raw payload) } := by
  rw [runFrom.eq_def]
  cases r <;> simp [hop]

/-- If the attempt at index `a` fails with a non-retryable axios error, the
loop throws the normalized error at once, whatever budget remains. -/
lemma runFrom_of_terminal (rc : RetryConfig) (op : Nat → OpResult T) (a r : Nat)
    (e : AxiosFailure) (hop : op a = .axiosFail e)
    (hterm : isRetryableError e = false) :
    runFrom rc op a r =
      { attempts := 1, sleeps := []
        result := .error (.normalized (handleAxiosError e)) } := by
  rw [runFrom.eq_def]
  cases r <;> simp [hop, hterm]

/-- A retryable failure with no budget left throws the normalized error. -/
lemma runFrom_of_exhausted (rc : RetryConfig) (op : Nat → OpResult T) (a : Nat)
    (e : AxiosFailure) (hop : op a = .axiosFail e)
    (hret : isRetryableError e = true) :
    runFrom rc op a 0 =
      { attempts := 1, sleeps := []
        result := .error (.normalized (handleAxiosError e)) } := by
  rw [runFrom.eq_def]
  simp [hop, hret]

/-- A retryable failure with budget left sleeps the backoff for the current
attempt index and continues with one fewer remaining attempt. -/
lemma runFrom_of_retryable_step (rc : RetryConfig) (op : Nat → OpResult T)
    (a r : Nat) (e : AxiosFailure) (hop : op a = .axiosFail e)
    (hret : isRetryableError e = true) :
    runFrom rc op a (r + 1) =
      { attempts := (runFrom rc op (a + 1) r).attempts + 1
        sleeps := calculateBackoff rc a :: (runFrom rc op (a + 1) r).sleeps
        result := (runFrom rc op (a + 1) r).result } := by
  conv_lhs => rw [runFrom.eq_def]
  simp [hop, hret]

/-- If every attempt fails with a retryable axios error, the loop starting at
attempt `a` with `r` remaining attempts performs `r + 1` invocations, sleeps
the backoff of attempts `a, a+1, ..., a+r-1` in order, and throws the
normalized error of the failure at attempt `a + r` (the last one). -/
lemma runFrom_all_retryable (rc : RetryConfig) (op : Nat → OpResult T)
    (f : Nat → AxiosFailure)
    (hop : ∀ i, op i = .axiosFail (f i))
    (hret : ∀ i, isRetryableError (f i) = true) :
    ∀ r a, runFrom rc op a r =
      { attempts := r + 1
        sleeps := (List.range' a r).map (calculateBackoff rc)
        result := .error (.normalized (handleAxiosError (f (a + r)))) } := by
  intro r
  induction r with
  | zero =>
      intro a
      simp [runFrom_of_exhausted rc op a (f a) (hop a) (hret a)]
  | succ n ih =>
      intro a
      rw [runFrom_of_retryable_step rc op a n (f a) (hop a) (hret a), ih (a + 1)]
      have harith : a + 1 + n = a + (n + 1) := by omega
      simp [List.range'_succ, harith]

/-- Claim C1: an axios failure is classified retryable exactly when no HTTP
response was received or the response status is 429 or lies in [500, 504];
when the first attempt fails with a terminal-classified error, exactly one
invocation of the operation happens (whatever `maxRetries` is) and the
normalized error is thrown with no sleep. -/
theorem retryable_classification_spec :
    (∀ (m : String) (r : HttpResponse),
      isRetryableError (.response m r) = true ↔
        (r.status = 429 ∨ (500 ≤ r.status ∧ r.status ≤ 504)))
    ∧ (∀ m : String, isRetryableError (.noResponse m) = true)
    ∧ (∀ m : String, isRetryableError (.setupError m) = true)
    ∧ (∀ (T : Type) (rc : RetryConfig) (op : Nat → OpResult T)
        (e : AxiosFailure),
        op 0 = .axiosFail e → isRetryableError e = false →
        executeWithRetry rc op =
          { attempts := 1, sleeps := []
            result := .error (.normalized (handleAxiosError e)) }) := by
  refine ⟨?_, fun m => rfl, fun m => rfl, ?_⟩
  · intro m r
    simp [isRetryableError]
  · intro T rc op e hop hterm
    exact runFrom_of_terminal rc op 0 rc.maxRetries e hop hterm

/-- Witness for C1 at a concrete terminal (404) failure and `maxRetries = 5`. -/
theorem retryable_classification_spec_witness :
    executeWithRetry { maxRetries := 5, retryDelay := 1000, maxRetryDelay := 10000 }
      (fun _ => (OpResult.axiosFail exResp404 : OpResult Nat)) =
      { attempts := 1, sleeps := []
        result := .error (.normalized (handleAxiosError exResp404)) } :=
  retryable_classification_spec.2.2.2 Nat
    { maxRetries := 5, retryDelay := 1000, maxRetryDelay := 10000 }
    (fun _ => OpResult.axiosFail exResp404) exResp404 rfl (by decide)

/-- Claim C2: when every attempt fails with a retryable-classified failure
and `maxRetries = N`, `executeWithRetry` invokes the operation exactly
`N + 1` times, sleeps `min(retryDelay * 2^attempt, maxRetryDelay)` between
consecutive attempts for attempt indices `0, ..., N - 1` (each delay bounded
by the ceiling; delays are `Nat`, hence never negative), and throws the
normalized error produced from the failure of the last attempt. -/
theorem all_retryable_exhausts_budget (T : Type) (rc : RetryConfig)
    (op : Nat → OpResult T) (f : Nat → AxiosFailure)
    (hop : ∀ i, op i = .axiosFail (f i))
    (hret : ∀ i, isRetryableError (f i) = true) :
    executeWithRetry rc op =
      { attempts := rc.maxRetries + 1
        sleeps := (List.range rc.maxRetries).map
          (fun i => min (rc.retryDelay * 2 ^ i) rc.maxRetryDelay)
        result := .error (.normalized (handleAxiosError (f rc.maxRetries))) }
    ∧ ∀ i, calculateBackoff rc i ≤ rc.maxRetryDelay := by
  constructor
  · have h := runFrom_all_retryable rc op f hop hret rc.maxRetries 0
    rw [executeWithRetry, h]
    simp [calculateBackoff, List.range_eq_range']
  · intro i
    exact min_le_right _ _

/-- Witness for C2: a persistent connection failure with `maxRetries = 2`,
`retryDelay = 1000`, `maxRetryDelay = 3000`: three invocations, sleeps
1000 then 2000, final error is the normalized no-response error. -/
theorem all_retryable_exhausts_budget_witness :
    executeWithRetry { maxRetries := 2, retryDelay := 1000, maxRetryDelay := 3000 }
      (fun _ => (OpResult.axiosFail (.noResponse "connect ECONNREFUSED") : OpResult Nat)) =
      { attempts := 3, sleeps := [1000, 2000]
        result := .error (.normalized
          (handleAxiosError (.noResponse "connect ECONNREFUSED"))) }
    ∧ ∀ i, calculateBackoff { maxRetries := 2, retryDelay := 1000, maxRetryDelay := 3000 } i
        ≤ 3000 := by
  have h := all_retryable_exhausts_budget Nat
      { maxRetries := 2, retryDelay := 1000, maxRetryDelay := 3000 }
      (fun _ => OpResult.axiosFail (AxiosFailure.noResponse "connect ECONNREFUSED"))
      (fun _ => AxiosFailure.noResponse "connect ECONNREFUSED")
      (fun _ => rfl) (fun _ => rfl)
  refine ⟨by rw [h.1]; rfl, h.2⟩

/-- Claim C3 (code bug): an explicit `maxRetries: 0` is NOT kept — the `||`
defaulting in the constructor treats the falsy 0 as absent, so the stored
policy is the default 3, and an operation that keeps failing retryably is
invoked 4 times instead of exactly once. -/
theorem maxRetries_zero_is_replaced_by_default :
    ∃ cl : Client,
      construct { apiKey := some "test-api-key", maxRetries := some 0 } = .ok cl
      ∧ cl.retryConfig.maxRetries = 3
      ∧ (executeWithRetry cl.retryConfig
          (fun _ => (OpResult.axiosFail (.noResponse "socket hang up") : OpResult Nat))).attempts
        = 4 := by
  exact ⟨_, rfl, rfl, by decide⟩

/-- Claim C4: with neither credential truthy, construction fails with the
MISSING_AUTH error; with both credentials truthy it fails with the
INVALID_AUTH_CONFIG error. `construct` is a pure function of the config (no
network effect) and is the only place the check occurs. -/
theorem construct_auth_validation (config : RecallBricksConfig) :
    (jsTruthyStr config.apiKey = false → jsTruthyStr config.serviceToken = false →
      construct config = .error missingAuthError)
    ∧ (jsTruthyStr config.apiKey = true → jsTruthyStr config.serviceToken = true →
      construct config = .error conflictAuthError) := by
  constructor
  · intro h1 h2
    simp [construct, h1, h2]
  · intro h1 h2
    simp [construct, h1, h2]

/-- Witness for C4: the empty config fails with MISSING_AUTH; a config with
both credentials fails with INVALID_AUTH_CONFIG. -/
theorem construct_auth_validation_witness :
    construct {} = .error missingAuthError
    ∧ construct { apiKey := some "key-a", serviceToken := some "tok-b" }
        = .error conflictAuthError :=
  ⟨(construct_auth_validation {}).1 rfl rfl,
   (construct_auth_validation
      { apiKey := some "key-a", serviceToken := some "tok-b" }).2 (by decide) (by decide)⟩

/-- Claim C5: in service-token mode, every subject-scoped method whose
userId is absent or empty fails with the MISSING_USER_ID error and zero
operation invocations (no network attempt, no retry budget consumed),
provided its own scalar validation passes; in api-key mode the userId check
is a no-op — the method delegates straight to the retry engine whatever the
userId is. -/
theorem subject_id_gate (T : Type) (c : Client) (userId : Option String)
    (op : Nat → OpResult T) :
    (c.usingServiceToken = true → jsTruthyStr userId = false →
      (∀ text, jsBlank text = false →
        createMemory c text userId op = localFailure T missingUserIdError)
      ∧ listMemories c userId op = localFailure T missingUserIdError
      ∧ (∀ q, jsBlank q = false →
        search c q userId op = localFailure T missingUserIdError)
      ∧ predictMemories c userId op = localFailure T missingUserIdError
      ∧ (∀ ctx, jsBlank ctx = false →
        suggestMemories c ctx userId op = localFailure T missingUserIdError)
      ∧ (∀ q, jsBlank q = false →
        searchWeighted c q userId op = localFailure T missingUserIdError))
    ∧ (c.usingServiceToken = false →
      (∀ text, jsBlank text = false →
        createMemory c text userId op = executeWithRetry c.retryConfig op)
      ∧ listMemories c userId op = executeWithRetry c.retryConfig op
      ∧ (∀ q, jsBlank q = false →
        search c q userId op = executeWithRetry c.retryConfig op)
      ∧ predictMemories c userId op = executeWithRetry c.retryConfig op
      ∧ (∀ ctx, jsBlank ctx = false →
        suggestMemories c ctx userId op = executeWithRetry c.retryConfig op)
      ∧ (∀ q, jsBlank q = false →
        searchWeighted c q userId op = executeWithRetry c.retryConfig op)) := by
  constructor
  · intro hsvc huid
    refine ⟨fun text htext => ?_, ?_, fun q hq => ?_, ?_, fun ctx hctx => ?_,
      fun q hq => ?_⟩ <;>
      simp_all [createMemory, listMemories, search, predictMemories,
        suggestMemories, searchWeighted, userIdMissing]
  · intro hapi
    refine ⟨fun text htext => ?_, ?_, fun q hq => ?_, ?_, fun ctx hctx => ?_,
      fun q hq => ?_⟩ <;>
      simp_all [createMemory, listMemories, search, predictMemories,
        suggestMemories, searchWeighted, userIdMissing]

/-- Witness for C5: the concrete service-token client rejects a create with
no userId without invoking the operation; the concrete api-key client with
the same arguments goes straight to the retry engine. -/
theorem subject_id_gate_witness :
    createMemory svcClientEx "hello" none okOp = localFailure Nat missingUserIdError
    ∧ createMemory apiClientEx "hello" none okOp
        = executeWithRetry apiClientEx.retryConfig okOp := by
  have h1 := (subject_id_gate Nat svcClientEx none okOp).1 rfl rfl
  have h2 := (subject_id_gate Nat apiClientEx none okOp).2 rfl
  exact ⟨h1.1 "hello" (by decide), h2.1 "hello" (by decide)⟩

/-- Counterexample to C6 as stated: the no-response and setup-error branches
do NOT leave the status code absent — they set it to the sentinel 0; and a
response body carrying an empty-string `error` field also falls back to the
transport message (the fallback condition is falsiness, not absence, of the
body field). -/
theorem normalizer_sentinel_counterexample :
    (handleAxiosError (.noResponse "read ECONNRESET")).statusCode ≠ none
    ∧ (handleAxiosError (.noResponse "read ECONNRESET")).statusCode = some 0
    ∧ (handleAxiosError (.setupError "bad header value")).statusCode = some 0
    ∧ (handleAxiosError (.response "Request failed with status code 500"
        { status := 500, data := { error := some "" } })).message
      = "Request failed with status code 500" := by
  refine ⟨by decide, rfl, rfl, rfl⟩

/-- Claim C6 as amended: the normalizer is a total three-way map. For a
failure carrying a response: status code is the response status, code and
details come from the body, and the message is the body error field when
that field is truthy (present and non-empty), else the transport message.
For a no-response failure: the fixed message, sentinel code NO_RESPONSE and
sentinel status code 0 (not an absent status). For a pre-dispatch failure:
the transport message, sentinel code REQUEST_SETUP_ERROR and status code 0. -/
theorem normalizer_three_way :
    (∀ (m : String) (r : HttpResponse),
      (handleAxiosError (.response m r)).statusCode = some r.status
      ∧ (handleAxiosError (.response m r)).code = r.data.code
      ∧ (handleAxiosError (.response m r)).details = r.data.details
      ∧ ((jsTruthyStr r.data.error = true ∧
            (handleAxiosError (.response m r)).message = r.data.error.getD "")
        ∨ (jsTruthyStr r.data.error = false ∧
            (handleAxiosError (.response m r)).message = m)))
    ∧ (∀ m : String, handleAxiosError (.noResponse m) =
        { message := "No response received from server"
          statusCode := some 0, code := some "NO_RESPONSE" })
    ∧ (∀ m : String, handleAxiosError (.setupError m) =
        { message := m, statusCode := some 0, code := some "REQUEST_SETUP_ERROR" }) := by
  refine ⟨?_, fun m => rfl, fun m => rfl⟩
  intro m r
  refine ⟨rfl, rfl, rfl, ?_⟩
  cases h : jsTruthyStr r.data.error
  · exact Or.inr ⟨rfl, by simp [handleAxiosError, h]⟩
  · exact Or.inl ⟨rfl, by simp [handleAxiosError, h]⟩

/-- Splitting lemma: if the `k` attempts at indices `a, ..., a + k - 1` all
fail retryably and `k ≤ r`, the loop performs those `k` attempts (with their
backoff sleeps) and then behaves as the loop restarted at attempt `a + k`
with `r - k` remaining. -/
lemma runFrom_skip_retryable (rc : RetryConfig) (op : Nat → OpResult T) :
    ∀ (k a r : Nat), k ≤ r →
    (∀ i, i < k → ∃ e, op (a + i) = .axiosFail e ∧ isRetryableError e = true) →
    runFrom rc op a r =
      { attempts := k + (runFrom rc op (a + k) (r - k)).attempts
        sleeps := (List.range' a k).map (calculateBackoff rc)
          ++ (runFrom rc op (a + k) (r - k)).sleeps
        result := (runFrom rc op (a + k) (r - k)).result } := by
  intro k
  induction k with
  | zero =>
      intro a r _ _
      simp
  | succ n ih =>
      intro a r hk hpre
      obtain ⟨e, hop, hret⟩ := hpre 0 (Nat.succ_pos n)
      obtain ⟨r', rfl⟩ : ∃ r', r = r' + 1 := ⟨r - 1, by omega⟩
      rw [runFrom_of_retryable_step rc op a r' e (by simpa using hop) hret]
      rw [ih (a + 1) r' (by omega) ?hpre]
      case hpre =>
        intro i hi
        obtain ⟨e', hop', hret'⟩ := hpre (i + 1) (by omega)
        refine ⟨e', ?_, hret'⟩
        rw [show a + 1 + i = a + (i + 1) by omega]
        exact hop'
      have h1 : a + 1 + n = a + (n + 1) := by omega
      have h2 : r' - n = r' + 1 - (n + 1) := by omega
      rw [h1, h2]
      simp only [List.range'_succ, List.map_cons, List.cons_append, RunTrace.mk.injEq]
      exact ⟨by omega, trivial, trivial⟩

/-- Claim C7: a value thrown by the operation that is not an axios failure is
propagated unchanged — not normalized, not wrapped, not retried: after `k`
retryable failures, a non-axios error at attempt `k` (within budget) ends the
run with `k + 1` invocations and the raw payload as the surfaced error. -/
theorem non_axios_error_propagates_unchanged (T : Type) (rc : RetryConfig)
    (op : Nat → OpResult T) (payload : String) (k : Nat)
    (hk : k ≤ rc.maxRetries)
    (hpre : ∀ i, i < k → ∃ e, op i = .axiosFail e ∧ isRetryableError e = true)
    (hop : op k = .otherFail payload) :
    executeWithRetry rc op =
      { attempts := k + 1
        sleeps := (List.range k).map (calculateBackoff rc)
        result := .error (.raw payload) } := by
  rw [executeWithRetry,
    runFrom_skip_retryable rc op k 0 rc.maxRetries hk (by simpa using hpre)]
  rw [runFrom_of_other rc op (0 + k) (rc.maxRetries - k) payload (by simpa using hop)]
  simp [List.range_eq_range']

/-- Witness for C7: with the mixed operation (one retryable no-response
failure, then a TypeError-like payload) and default-like knobs, the run stops
at the second attempt with the raw payload, after one backoff sleep. -/
theorem non_axios_error_propagates_unchanged_witness :
    executeWithRetry { maxRetries := 3, retryDelay := 1000, maxRetryDelay := 10000 }
      exMixedOp =
      { attempts := 2, sleeps := [1000]
        result := .error (.raw "TypeError: boom") } := by
  have h := non_axios_error_propagates_unchanged Nat
    { maxRetries := 3, retryDelay := 1000, maxRetryDelay := 10000 }
    exMixedOp "TypeError: boom" 1 (by decide)
    (fun i hi => by
      have hz : i = 0 := by omega
      subst hz
      exact ⟨.noResponse "timeout of 100ms exceeded", rfl, rfl⟩)
    rfl
  rw [h]
  rfl

/-- Claim C8: every endpoint with an invalid scalar argument — blank text,
query, context or memory id; a depth outside [1, 10]; a day count below 1 —
fails with the corresponding local INVALID_INPUT error and zero operation
invocations: no network attempt, no sleep, no retry budget consumed. -/
theorem local_scalar_validation (T : Type) (c : Client) (op : Nat → OpResult T) :
    (∀ text userId, jsBlank text = true →
      createMemory c text userId op = localFailure T (invalidInputError "Text is required"))
    ∧ (∀ q userId, jsBlank q = true →
      search c q userId op = localFailure T (invalidInputError "Query is required"))
    ∧ (∀ ctx userId, jsBlank ctx = true →
      suggestMemories c ctx userId op = localFailure T (invalidInputError "Context is required"))
    ∧ (∀ q userId, jsBlank q = true →
      searchWeighted c q userId op = localFailure T (invalidInputError "Query is required"))
    ∧ (∀ id, jsBlank id = true →
      getRelationships c id op = localFailure T (invalidInputError "Memory ID is required"))
    ∧ (∀ id depth, jsBlank id = true →
      getGraphContext c id depth op = localFailure T (invalidInputError "Memory ID is required"))
    ∧ (∀ id depth, jsBlank id = false → (depth < 1 ∨ 10 < depth) →
      getGraphContext c id depth op
        = localFailure T (invalidInputError "Depth must be between 1 and 10"))
    ∧ (∀ days, days < 1 →
      getLearningMetrics c days op = localFailure T (invalidInputError "Days must be at least 1"))
    ∧ (∀ days, days < 1 →
      getPatterns c days op = localFailure T (invalidInputError "Days must be at least 1")) := by
  refine ⟨fun text userId h => ?_, fun q userId h => ?_, fun ctx userId h => ?_,
    fun q userId h => ?_, fun id h => ?_, fun id depth h => ?_,
    fun id depth h hd => ?_, fun days h => ?_, fun days h => ?_⟩ <;>
  simp_all [createMemory, search, suggestMemories, searchWeighted,
    getRelationships, getGraphContext, getLearningMetrics, getPatterns]

/-- Witness for C8: whitespace-only text, depth 0 and 11, and a day count of
0 each fail locally on the concrete api-key client, with zero attempts. -/
theorem local_scalar_validation_witness :
    createMemory apiClientEx "   " none okOp
      = localFailure Nat (invalidInputError "Text is required")
    ∧ getGraphContext apiClientEx "mem-1" 0 okOp
      = localFailure Nat (invalidInputError "Depth must be between 1 and 10")
    ∧ getGraphContext apiClientEx "mem-1" 11 okOp
      = localFailure Nat (invalidInputError "Depth must be between 1 and 10")
    ∧ getLearningMetrics apiClientEx 0 okOp
      = localFailure Nat (invalidInputError "Days must be at least 1") := by
  have h := local_scalar_validation Nat apiClientEx okOp
  refine ⟨h.1 "   " none (by decide), ?_, ?_, h.2.2.2.2.2.2.2.1 0 (by decide)⟩
  · exact h.2.2.2.2.2.2.1 "mem-1" 0 (by decide) (Or.inl (by decide))
  · exact h.2.2.2.2.2.2.1 "mem-1" 11 (by decide) (Or.inr (by decide))

/-- The fields of a successfully constructed client in terms of the config:
mode is the truthiness of the service token, and the retry knobs are the
`||`-defaulted config values. -/
lemma construct_ok_fields (config : RecallBricksConfig) (cl : Client)
    (h : construct config = .ok cl) :
    cl.usingServiceToken = jsTruthyStr config.serviceToken
    ∧ cl.retryConfig =
      { maxRetries := jsOrNat config.maxRetries 3
        retryDelay := jsOrNat config.retryDelay 1000
        maxRetryDelay := jsOrNat config.maxRetryDelay 10000 } := by
  unfold construct at h
  split at h
  · simp at h
  · split at h
    · simp at h
    · simp only [Except.ok.injEq] at h
      subst h
      exact ⟨rfl, rfl⟩

/-- Claim C9: library behavior does not depend on the credential value. For
two configs that differ only in the credential values (same auth mode, same
non-credential fields), the constructed clients have the same retry policy
and mode, and every run — the retry engine on any operation, and the methods
with all their locally constructed errors (validation, no-response,
setup-error, exhaustion) — produces identical traces, so no
library-constructed error string can depend on (or echo) the credential. -/
theorem credential_noninterference (c1 c2 : RecallBricksConfig)
    (cl1 cl2 : Client) (hsame : sameExceptCredential c1 c2)
    (h1 : construct c1 = .ok cl1) (h2 : construct c2 = .ok cl2) :
    cl1.retryConfig = cl2.retryConfig
    ∧ cl1.usingServiceToken = cl2.usingServiceToken
    ∧ (∀ (T : Type) (op : Nat → OpResult T),
        executeWithRetry cl1.retryConfig op = executeWithRetry cl2.retryConfig op)
    ∧ (∀ (T : Type) (op : Nat → OpResult T) (text : String) (userId : Option String),
        createMemory cl1 text userId op = createMemory cl2 text userId op)
    ∧ (∀ (T : Type) (op : Nat → OpResult T) (q : String) (userId : Option String),
        search cl1 q userId op = search cl2 q userId op) := by
  obtain ⟨hb, ht, hm, hr, hx, hs⟩ := hsame
  obtain ⟨hu1, hrc1⟩ := construct_ok_fields c1 cl1 h1
  obtain ⟨hu2, hrc2⟩ := construct_ok_fields c2 cl2 h2
  have hrc : cl1.retryConfig = cl2.retryConfig := by
    rw [hrc1, hrc2, hm, hr, hx]
  have hu : cl1.usingServiceToken = cl2.usingServiceToken := by
    rw [hu1, hu2, hs]
  refine ⟨hrc, hu, fun T op => by rw [hrc], fun T op text userId => ?_,
    fun T op q userId => ?_⟩
  · simp [createMemory, userIdMissing, hrc, hu]
  · simp [search, userIdMissing, hrc, hu]

/-- Witness for C9: two api-key configs with different keys yield clients
with identical retry policy and identical `createMemory` traces. -/
theorem credential_noninterference_witness :
    ∃ cl1 cl2 : Client,
      construct { apiKey := some "key-one" } = .ok cl1
      ∧ construct { apiKey := some "key-two" } = .ok cl2
      ∧ cl1.retryConfig = cl2.retryConfig
      ∧ (∀ (op : Nat → OpResult Nat) (text : String) (userId : Option String),
          createMemory cl1 text userId op = createMemory cl2 text userId op) := by
  refine ⟨_, _, rfl, rfl, ?_, ?_⟩
  · exact (credential_noninterference
      { apiKey := some "key-one" } { apiKey := some "key-two" } _ _
      ⟨rfl, rfl, rfl, rfl, rfl, rfl⟩ rfl rfl).1
  · intro op text userId
    exact (credential_noninterference
      { apiKey := some "key-one" } { apiKey := some "key-two" } _ _
      ⟨rfl, rfl, rfl, rfl, rfl, rfl⟩ rfl rfl).2.2.2.1 Nat op text userId

/-- Claim C10: an empty-string credential is treated as absent. A config with
`apiKey: ""` and no serviceToken fails with the MISSING_AUTH error; a config
with `apiKey: ""` and a non-empty serviceToken does not trigger the conflict
error — it constructs a client in service-token mode. -/
theorem empty_credential_is_absent (cfg : RecallBricksConfig) :
    (cfg.apiKey = some "" → cfg.serviceToken = none →
      construct cfg = .error missingAuthError)
    ∧ (∀ t : String, t ≠ "" → cfg.apiKey = some "" → cfg.serviceToken = some t →
      ∃ cl, construct cfg = .ok cl ∧ cl.usingServiceToken = true
        ∧ cl.authHeaderName = "X-Service-Token") := by
  constructor
  · intro h1 h2
    have ha : jsTruthyStr cfg.apiKey = false := by
      rw [h1]; simp [jsTruthyStr]
    have hs : jsTruthyStr cfg.serviceToken = false := by
      rw [h2]; rfl
    simp [construct, ha, hs]
  · intro t ht h1 h2
    have ha : jsTruthyStr cfg.apiKey = false := by
      rw [h1]; simp [jsTruthyStr]
    have hs : jsTruthyStr cfg.serviceToken = true := by
      rw [h2]; simp [jsTruthyStr, ht]
    refine ⟨{ baseURL := jsOrStr cfg.baseUrl "http://localhost:10002/api/v1"
              timeout := jsOrNat cfg.timeout 30000
              usingServiceToken := true
              authHeaderName := "X-Service-Token"
              authHeaderValue := cfg.serviceToken.getD ""
              retryConfig :=
                { maxRetries := jsOrNat cfg.maxRetries 3
                  retryDelay := jsOrNat cfg.retryDelay 1000
                  maxRetryDelay := jsOrNat cfg.maxRetryDelay 10000 } }, ?_, rfl, rfl⟩
    simp [construct, ha, hs]

/-- Witness for C10: `{apiKey: ""}` fails with MISSING_AUTH, and
`{apiKey: "", serviceToken: "svc-tok"}` constructs in service-token mode. -/
theorem empty_credential_is_absent_witness :
    construct { apiKey := some "" } = .error missingAuthError
    ∧ ∃ cl, construct { apiKey := some "", serviceToken := some "svc-tok" } = .ok cl
        ∧ cl.usingServiceToken = true ∧ cl.authHeaderName = "X-Service-Token" :=
  ⟨(empty_credential_is_absent { apiKey := some "" }).1 rfl rfl,
   (empty_credential_is_absent
      { apiKey := some "", serviceToken := some "svc-tok" }).2 "svc-tok"
      (by decide) rfl rfl⟩

end RecallBricks
